import Mathlib

/-!
Verification of the architecture-visualizer repository (`repo_viz.py`,
`viz-cli.py`) against its specification.  The Python source is shallowly
embedded: pure string/AST manipulation is translated to Lean functions,
the external analyzers (radon, bandit, coverage, docker, git) are
abstracted as oracle parameters, and the CLI / analyzer state is modelled
by explicit state passing.
-/

/-- Python's substring check at the head of a list: `needle` occurs at
position 0 of `hay`. -/
def leadMatch : List Char → List Char → Bool
  | [], _ => true
  | _ :: _, [] => false
  | a :: as, b :: bs => a = b && leadMatch as bs

/-- Substring containment on character lists (Python's `needle in hay`). -/
def containsSub (needle : List Char) : List Char → Bool
  | [] => needle.isEmpty
  | c :: rest => leadMatch needle (c :: rest) || containsSub needle rest

/-- Python's `needle in hay` on strings (substring containment). -/
def strIn (needle hay : String) : Bool :=
  containsSub needle.toList hay.toList

/-- Python's `str.lower()` (ASCII case folding suffices for the marker
strings used by the analyzer). -/
def pyLower (s : String) : String :=
  String.mk (s.toList.map Char.toLower)

/-- A word character in the sense of the regex `\W` used by
`generate_mermaid` (`[A-Za-z0-9_]`). -/
def isWordChar (c : Char) : Bool :=
  c.isAlphanum || c = '_'

/-- Replace each maximal run of non-word characters by one underscore
(`re.sub(r'\W+', '_', s)` on the character list).  The boolean records
whether the previous character was part of a non-word run already
replaced. -/
def squashNonWord : Bool → List Char → List Char
  | _, [] => []
  | inRun, c :: rest =>
    if isWordChar c then c :: squashNonWord false rest
    else if inRun then squashNonWord true rest
    else '_' :: squashNonWord true rest

/-- Node identifier derivation of `generate_mermaid`:
`node_id = re.sub(r'\W+', '_', name)`. -/
def nodeId (s : String) : String :=
  String.mk (squashNonWord false s.toList)

/-- The fragment of the Python abstract syntax tree that
`_extract_dependencies` and `analyze_performance` inspect: `ast.Import`
(the dotted names of its aliases), `ast.ImportFrom` (its optional
`module`), `ast.Name` (its `id`), `ast.Attribute` (its `attr` and the
object expression), `ast.Call` (callee and arguments); every other node
kind only contributes its children to the walk and is collapsed into
`blockNode`. -/
inductive PyNode where
  | importNode (names : List String)
  | importFromNode (modName : Option String)
  | nameNode (id : String)
  | attrNode (value : PyNode) (a : String)
  | callNode (func : PyNode) (args : List PyNode)
  | blockNode (children : List PyNode)
deriving Repr

mutual

/-- All nodes of a tree, the root included (`ast.walk`; the Python
original is breadth-first, which yields the same multiset of nodes). -/
def walk : PyNode → List PyNode
  | .importNode ns => [.importNode ns]
  | .importFromNode m => [.importFromNode m]
  | .nameNode i => [.nameNode i]
  | .attrNode v a => .attrNode v a :: walk v
  | .callNode f args => .callNode f args :: (walk f ++ walkList args)
  | .blockNode cs => .blockNode cs :: walkList cs

/-- Walk every tree of a list, concatenating the results. -/
def walkList : List PyNode → List PyNode
  | [] => []
  | t :: ts => walk t ++ walkList ts

end

/-- First dot-segment of a dotted module name (`name.split('.')[0]`). -/
def topSegment (s : String) : String :=
  (s.splitOn ".").headD ""

/-- Module dependencies extracted from the import nodes of a tree
(`_extract_dependencies`): for `ast.Import` the first segment of every
alias name, for `ast.ImportFrom` the first segment of `node.module` when
that field is truthy.  The Python set is modelled by a deduplicated
list; only membership matters downstream. -/
def extract_dependencies (tree : PyNode) : List String :=
  ((walk tree).flatMap (fun n =>
    match n with
    | .importNode names => names.map topSegment
    | .importFromNode (some m) => if m.isEmpty then [] else [topSegment m]
    | _ => [])).dedup

/-- Python's `getattr(e, 'id', '')`: the identifier of a `Name` node,
the empty string on every other node kind. -/
def getFuncId : PyNode → String
  | .nameNode i => i
  | _ => ""

/-- Python's `getattr(e, 'attr', '')`: the attribute name of an
`Attribute` node, the empty string on every other node kind. -/
def getFuncAttr : PyNode → String
  | .attrNode _ a => a
  | _ => ""

/-- Count of IO operations in `analyze_performance`: calls whose callee,
read through `getattr(n.func, 'id', '')`, contains one of
`open`, `read`, `write` as a substring. -/
def ioOpsCount (tree : PyNode) : Nat :=
  ((walk tree).filter (fun n =>
    match n with
    | .callNode f _ => ["open", "read", "write"].any (fun w => strIn w (getFuncId f))
    | _ => false)).length

/-- Count of DB operations in `analyze_performance`: calls whose callee,
read through `getattr(n.func, 'attr', '')`, contains one of
`execute`, `query`, `commit` as a substring. -/
def dbOpsCount (tree : PyNode) : Nat :=
  ((walk tree).filter (fun n =>
    match n with
    | .callNode f _ => ["execute", "query", "commit"].any (fun w => strIn w (getFuncAttr f))
    | _ => false)).length

/-- Count of network calls in `analyze_performance`: calls whose callee,
read through `getattr(n.func, 'attr', '')`, contains one of
`get`, `post`, `request` as a substring. -/
def networkCallsCount (tree : PyNode) : Nat :=
  ((walk tree).filter (fun n =>
    match n with
    | .callNode f _ => ["get", "post", "request"].any (fun w => strIn w (getFuncAttr f))
    | _ => false)).length

/-- Finding shape reported by the security pass (dataclass
`SecurityIssue`). -/
structure SecurityIssue where
  severity : String
  issue_type : String
  filename : String
  line : Int
  description : String
deriving Repr, DecidableEq

/-- Performance snapshot (dataclass `PerformanceMetric`).  The
maintainability index is a float in the source, produced wholesale by the
external radon library; it is modelled as an abstract integer since no
claim computes with it. -/
structure PerformanceMetric where
  complexity : Nat
  maintainability : Int
  io_operations : Nat
  db_operations : Nat
  network_calls : Nat
deriving Repr, DecidableEq

/-- Container layer record (dataclass `DockerLayer`). -/
structure DockerLayer where
  command : String
  size : Nat
  dependencies : List String
deriving Repr, DecidableEq

/-- Aggregated per-file record (dataclass `Component`).  Paths are
strings; Python sets are modelled as lists, only membership being used
downstream. -/
structure Component where
  name : String
  type : String
  path : String
  performance : PerformanceMetric
  security_issues : List SecurityIssue
  test_coverage : Int := 0
  docker_layers : List DockerLayer := []
  dependencies : List String := []
  api_endpoints : List String := []
  external_urls : List String := []
deriving Repr, DecidableEq

/-- A discovered Python source file: its path, filename stem, raw text
content, and the syntax tree `ast.parse` yields for that content (the
parser itself is external; a parse failure would abort the Python run,
so only parseable files are modelled). -/
structure PyFile where
  path : String
  stem : String
  content : String
  tree : PyNode
deriving Repr

/-- Component classification of `_detect_component_type`: filename stem
containing `test` wins, then a framework marker in the lower-cased file
content gives `api`, then stem containing `model` gives `model`, else
`module`. -/
def detect_component_type (f : PyFile) : String :=
  if strIn "test" (pyLower f.stem) then "test"
  else if ["fastapi", "flask", "django"].any (fun w => strIn w (pyLower f.content)) then "api"
  else if strIn "model" (pyLower f.stem) then "model"
  else "module"

/-- Performance pass (`analyze_performance`).  Cyclomatic complexity and
maintainability come wholesale from the external radon library, modelled
by the oracles `ccSum` (sum of per-function complexities of
`cc_visit(content)`) and `mi` (`mi_visit(content, multi=True)`); the
three call counts are computed over the re-parsed tree. -/
def analyze_performance (ccSum : String → Nat) (mi : String → Int) (f : PyFile) :
    PerformanceMetric :=
  { complexity := ccSum f.content
    maintainability := mi f.content
    io_operations := ioOpsCount f.tree
    db_operations := dbOpsCount f.tree
    network_calls := networkCallsCount f.tree }

/-- Python dict assignment `m[k] = v` on an association list: replace in
place when the key is present, append otherwise (insertion order is
preserved, as for a Python dict). -/
def dictInsert (m : List (String × Component)) (k : String) (v : Component) :
    List (String × Component) :=
  if m.any (fun p => p.1 = k) then
    m.map (fun p => if p.1 = k then (k, v) else p)
  else m ++ [(k, v)]

/-- Body of the main analysis loop of `ArchitectureAnalyzer.analyze`:
skip the file when its stem contains `test` (case-insensitively),
otherwise build one `Component` — kind from the classifier, dependencies
from the import walk, performance from the performance pass, security
findings from the external bandit engine (oracle `sec`) — and store it
keyed by the file stem. -/
def analyzeStep (ccSum : String → Nat) (mi : String → Int) (sec : PyFile → List SecurityIssue)
    (acc : List (String × Component)) (f : PyFile) : List (String × Component) :=
  if strIn "test" (pyLower f.stem) then acc
  else
    dictInsert acc f.stem
      { name := f.stem
        type := detect_component_type f
        path := f.path
        dependencies := extract_dependencies f.tree
        performance := analyze_performance ccSum mi f
        security_issues := sec f }

/-- Main analysis pass (`ArchitectureAnalyzer.analyze`): iterate the
discovered `.py` files in order, applying the loop body to an initially
empty component map. -/
def analyze (ccSum : String → Nat) (mi : String → Int) (sec : PyFile → List SecurityIssue)
    (files : List PyFile) : List (String × Component) :=
  files.foldl (analyzeStep ccSum mi sec) []

/-- One line of the mermaid output of `generate_mermaid`, kept
structured; `renderLine` produces the exact string the Python code
builds for it, and the final output is the `"\n"`-join of the rendered
lines. -/
inductive MLine where
  | header (s : String)
  | classDef (nm style : String)
  | subgraphStart (layer : String)
  | subgraphEnd
  | node (nm : String) (cc : Nat)
  | edge (src dep : String)
deriving Repr, DecidableEq

/-- Style suffix attached to a rendered node
(`":::high" if cc > 50 else ":::medium" if cc > 20 else ":::low"`). -/
def styleSuffix (cc : Nat) : String :=
  if cc > 50 then ":::high" else if cc > 20 then ":::medium" else ":::low"

/-- Exact text of one output line, as the f-strings of
`generate_mermaid` build it. -/
def renderLine : MLine → String
  | .header s => s
  | .classDef nm style => "    classDef " ++ nm ++ " " ++ style
  | .subgraphStart layer => "    subgraph " ++ layer ++ " Layer"
  | .subgraphEnd => "    end\n"
  | .node nm cc =>
      "        " ++ nodeId nm ++ "[" ++ nm ++ "<br/>CC:" ++ toString cc ++ "]" ++ styleSuffix cc
  | .edge src dep => "    " ++ nodeId src ++ " --> " ++ nodeId dep

/-- The fixed prelude of every diagram: the two header lines and the
three style-class definitions, in the dict order of `styles`. -/
def headerLines : List MLine :=
  [ .header "graph TD",
    .header "    %% Style definitions",
    .classDef "high" "fill:#f44336,color:white",
    .classDef "medium" "fill:#fb8c00,color:white",
    .classDef "low" "fill:#81c784,color:black" ]

/-- Components of the `Client` layer: every stored component whose name
contains `client` (case-insensitively). -/
def clientGroup (m : List (String × Component)) : List Component :=
  (m.map Prod.snd).filter (fun c => strIn "client" (pyLower c.name))

/-- Components of the `API` layer: every stored component whose name
contains `api` (case-insensitively). -/
def apiGroup (m : List (String × Component)) : List Component :=
  (m.map Prod.snd).filter (fun c => strIn "api" (pyLower c.name))

/-- Components of the `Core` layer: every stored component whose name
contains `core`, `type` or `base` (case-insensitively). -/
def coreGroup (m : List (String × Component)) : List Component :=
  (m.map Prod.snd).filter (fun c =>
    strIn "core" (pyLower c.name) || strIn "type" (pyLower c.name) ||
      strIn "base" (pyLower c.name))

/-- Subgraph block emitted for one layer: nothing when the layer is
empty, otherwise the `subgraph` line, one node line per component of the
layer, and the closing `end` line. -/
def layerBlock (layer : String) (comps : List Component) : List MLine :=
  if comps.isEmpty then []
  else
    MLine.subgraphStart layer ::
      (comps.map (fun c => MLine.node c.name c.performance.complexity) ++ [MLine.subgraphEnd])

/-- Relationship lines: for every stored component in map order and
every dependency of it that is itself a key of the map, one edge
line. -/
def edgeLines (m : List (String × Component)) : List MLine :=
  m.flatMap (fun p =>
    (p.2.dependencies.filter (fun d => m.any (fun q => q.1 = d))).map
      (fun d => MLine.edge p.1 d))

/-- The full line list of `generate_mermaid` for a given component map:
prelude, the three layer blocks, then the relationship lines. -/
def mermaidLineList (m : List (String × Component)) : List MLine :=
  headerLines ++ layerBlock "Client" (clientGroup m) ++ layerBlock "API" (apiGroup m) ++
    layerBlock "Core" (coreGroup m) ++ edgeLines m

/-- Diagram generation entry point (`generate_mermaid`): when the stored
component map is empty the
analysis pass is first run on the discovered files (the
`if not self.components: self.analyze()` guard), then the line list is
rendered and joined with newlines. -/
def generate_mermaid (ccSum : String → Nat) (mi : String → Int)
    (sec : PyFile → List SecurityIssue) (files : List PyFile)
    (components : List (String × Component)) : String :=
  let comps := if components.isEmpty then analyze ccSum mi sec files else components
  String.intercalate "\n" ((mermaidLineList comps).map renderLine)

/-- Analyzer object state after construction (`ArchitectureAnalyzer`):
the resolved repository path, the temporary clone directory when one was
made, and the (initially empty) component map. -/
structure AnalyzerState where
  repoPath : String
  tempDir : Option String
  components : List (String × Component)
deriving Repr

/-- Python truthiness of an optional string argument (`if repo_url:`):
`None` and the empty string are falsy. -/
def pyTruthy : Option String → Bool
  | none => false
  | some s => !s.isEmpty

/-- Constructor `ArchitectureAnalyzer.__init__`: with a truthy
`repo_url` the repository is cloned into a fresh temporary directory
(the external git clone and `tempfile.mkdtemp` are modelled by the
oracle `cloneDir`); with a truthy `local_path` that path is used
directly; with neither, a `ValueError` is raised before any state is
built. -/
def initAnalyzer (cloneDir : String → String) (repoUrl localPath : Option String) :
    Except String AnalyzerState :=
  if pyTruthy repoUrl then
    Except.ok
      { repoPath := cloneDir (repoUrl.getD "")
        tempDir := some (cloneDir (repoUrl.getD ""))
        components := [] }
  else if pyTruthy localPath then
    Except.ok { repoPath := localPath.getD "", tempDir := none, components := [] }
  else Except.error "Either repo_url or local_path must be provided"

/-- Output of the CLI `analyze` command: either the mermaid text, or the
structured JSON dump — `json.dumps({'components': {name: asdict(comp)}},
indent=2, default=str)` — kept as the component map being serialized. -/
inductive CliOutput where
  | mermaidOut (s : String)
  | jsonOut (components : List (String × Component))
deriving Repr

/-- The CLI `analyze` command of `viz-cli.py` on a local directory: a
fresh analyzer is constructed (its component map empty), then the
`mermaid` format calls `generate_mermaid` while every other format
serializes `analyzer.components` as JSON directly — without any call to
`analyze()` on that path. -/
def cliAnalyze (ccSum : String → Nat) (mi : String → Int)
    (sec : PyFile → List SecurityIssue) (files : List PyFile) (format : String) :
    CliOutput :=
  let freshComponents : List (String × Component) := []
  if format = "mermaid" then
    CliOutput.mermaidOut (generate_mermaid ccSum mi sec files freshComponents)
  else
    CliOutput.jsonOut freshComponents

/-! Concrete oracles and inputs used by witnesses and counterexamples. -/

/-- Trivial complexity oracle (radon reporting zero complexity). -/
def ccZero : String → Nat := fun _ => 0

/-- Trivial maintainability oracle. -/
def miZero : String → Int := fun _ => 0

/-- Trivial security oracle (bandit reporting no findings). -/
def secNone : PyFile → List SecurityIssue := fun _ => []

/-- A minimal non-test Python file `app.py` with empty content. -/
def appFile : PyFile :=
  { path := "app.py", stem := "app", content := "", tree := PyNode.blockNode [] }

/-- The component record `analyze` builds for `appFile` under the
trivial oracles. -/
def appComp : Component :=
  { name := "app", type := "module", path := "app.py",
    performance :=
      { complexity := 0, maintainability := 0, io_operations := 0, db_operations := 0,
        network_calls := 0 },
    security_issues := [] }

/-- Predicate: the line is a node line bearing the given name. -/
def isNodeNamed (nm : String) : MLine → Bool := fun l =>
  match l with
  | .node n _ => n == nm
  | _ => false

/-- Count of node lines for name `nm` in a line list. -/
def nodeCount (nm : String) (lines : List MLine) : Nat :=
  lines.countP (isNodeNamed nm)

/-- Count of components bearing a given name in a component list. -/
def namedIn (nm : String) (comps : List Component) : Nat :=
  comps.countP (fun c => c.name == nm)

/-- True when a component name matches at least one of the three layer
groups of `generate_mermaid`. -/
def inAnyLayer (nm : String) : Bool :=
  strIn "client" (pyLower nm) || strIn "api" (pyLower nm) || strIn "core" (pyLower nm) ||
    strIn "type" (pyLower nm) || strIn "base" (pyLower nm)

/-- A component whose name matches both the `Client` and the `API`
layer filters. -/
def apiClientComp : Component :=
  { name := "api_client", type := "module", path := "api_client.py",
    performance :=
      { complexity := 5, maintainability := 0, io_operations := 0, db_operations := 0,
        network_calls := 0 },
    security_issues := [] }

/-- Component map holding only `apiClientComp`. -/
def apiClientMap : List (String × Component) := [("api_client", apiClientComp)]

/-- A component whose name matches none of the layer filters, with one
local and one third-party dependency. -/
def helperComp : Component :=
  { name := "helper", type := "module", path := "helper.py",
    performance :=
      { complexity := 3, maintainability := 0, io_operations := 0, db_operations := 0,
        network_calls := 0 },
    security_issues := [], dependencies := ["corelib", "requests"] }

/-- A component whose name matches the `Core` layer filter. -/
def corelibComp : Component :=
  { name := "corelib", type := "module", path := "corelib.py",
    performance :=
      { complexity := 4, maintainability := 0, io_operations := 0, db_operations := 0,
        network_calls := 0 },
    security_issues := [] }

/-- Component map holding `helperComp` and `corelibComp`. -/
def helperMap : List (String × Component) :=
  [("helper", helperComp), ("corelib", corelibComp)]

/-! Structural lemmas about the renderer's line list. -/

/-- Every line of a layer block is the subgraph opener, a node line of a
component of that layer, or the closing line. -/
lemma mem_layerBlock_shape {l : MLine} {layer : String} {comps : List Component}
    (h : l ∈ layerBlock layer comps) :
    l = MLine.subgraphStart layer ∨
      (∃ c ∈ comps, l = MLine.node c.name c.performance.complexity) ∨
      l = MLine.subgraphEnd := by
  unfold layerBlock at h
  split at h
  · exact absurd h (List.not_mem_nil l)
  · rcases List.mem_cons.mp h with h | h
    · exact Or.inl h
    · rcases List.mem_append.mp h with h | h
      · rcases List.mem_map.mp h with ⟨c, hc, he⟩
        exact Or.inr (Or.inl ⟨c, hc, he.symm⟩)
      · exact Or.inr (Or.inr (List.mem_singleton.mp h))

/-- Every line of the relationship section is an edge line coming from a
stored component and one of its dependencies that is a key of the map. -/
lemma mem_edgeLines_iff {m : List (String × Component)} {a b : String} :
    MLine.edge a b ∈ edgeLines m ↔
      ∃ c : Component, (a, c) ∈ m ∧ b ∈ c.dependencies ∧ ∃ p ∈ m, p.1 = b := by
  unfold edgeLines
  constructor
  · intro h
    rcases List.mem_flatMap.mp h with ⟨p, hp, hin⟩
    rcases List.mem_map.mp hin with ⟨d, hd, heq⟩
    rcases List.mem_filter.mp hd with ⟨hdep, hany⟩
    injection heq with h1 h2
    subst h1; subst h2
    refine ⟨p.2, ?_, hdep, ?_⟩
    · exact hp
    · simpa using List.any_eq_true.mp hany
  · rintro ⟨c, hm, hd, p, hp, he⟩
    refine List.mem_flatMap.mpr ⟨(a, c), hm, List.mem_map.mpr ⟨b, List.mem_filter.mpr ⟨hd, ?_⟩, rfl⟩⟩
    exact List.any_eq_true.mpr ⟨p, hp, by simpa using he⟩

/-- Every line of the relationship section is edge-shaped. -/
lemma mem_edgeLines_isEdge {l : MLine} {m : List (String × Component)}
    (h : l ∈ edgeLines m) : ∃ a b, l = MLine.edge a b := by
  unfold edgeLines at h
  rcases List.mem_flatMap.mp h with ⟨p, _, hin⟩
  rcases List.mem_map.mp hin with ⟨d, _, heq⟩
  exact ⟨p.1, d, heq.symm⟩

/-- A node line in the full output names a component of one of the three
layer groups. -/
lemma mem_mermaid_node {m : List (String × Component)} {nm : String} {k : Nat}
    (h : MLine.node nm k ∈ mermaidLineList m) :
    (∃ c ∈ clientGroup m, c.name = nm) ∨ (∃ c ∈ apiGroup m, c.name = nm) ∨
      (∃ c ∈ coreGroup m, c.name = nm) := by
  unfold mermaidLineList at h
  simp only [List.mem_append] at h
  rcases h with ((((h | h) | h) | h) | h)
  · simp [headerLines] at h
  · rcases mem_layerBlock_shape h with h | ⟨c, hc, he⟩ | h
    · exact absurd h (by simp)
    · exact Or.inl ⟨c, hc, by injection he.symm⟩
    · exact absurd h (by simp)
  · rcases mem_layerBlock_shape h with h | ⟨c, hc, he⟩ | h
    · exact absurd h (by simp)
    · exact Or.inr (Or.inl ⟨c, hc, by injection he.symm⟩)
    · exact absurd h (by simp)
  · rcases mem_layerBlock_shape h with h | ⟨c, hc, he⟩ | h
    · exact absurd h (by simp)
    · exact Or.inr (Or.inr ⟨c, hc, by injection he.symm⟩)
    · exact absurd h (by simp)
  · rcases mem_edgeLines_isEdge h with ⟨a, b, he⟩
    exact absurd he (by simp)

/-- An edge line occurs in the full output exactly when it occurs in the
relationship section. -/
lemma edge_mem_mermaid_iff {m : List (String × Component)} {a b : String} :
    MLine.edge a b ∈ mermaidLineList m ↔ MLine.edge a b ∈ edgeLines m := by
  unfold mermaidLineList
  simp only [List.mem_append]
  constructor
  · intro h
    rcases h with ((((h | h) | h) | h) | h)
    · simp [headerLines] at h
    · rcases mem_layerBlock_shape h with h | ⟨c, _, he⟩ | h <;> simp_all
    · rcases mem_layerBlock_shape h with h | ⟨c, _, he⟩ | h <;> simp_all
    · rcases mem_layerBlock_shape h with h | ⟨c, _, he⟩ | h <;> simp_all
    · exact h
  · exact fun h => Or.inr h

/-- A node line for a name outside every layer group never occurs in the
output. -/
lemma node_notin_mermaid {m : List (String × Component)} {nm : String}
    (hno : inAnyLayer nm = false) (k : Nat) : MLine.node nm k ∉ mermaidLineList m := by
  intro h
  simp only [inAnyLayer, Bool.or_eq_false_iff] at hno
  rcases mem_mermaid_node h with ⟨c, hc, he⟩ | ⟨c, hc, he⟩ | ⟨c, hc, he⟩
  · rcases List.mem_filter.mp hc with ⟨_, hpred⟩
    rw [he] at hpred
    simp [hpred] at hno
  · rcases List.mem_filter.mp hc with ⟨_, hpred⟩
    rw [he] at hpred
    simp [hpred] at hno
  · rcases List.mem_filter.mp hc with ⟨_, hpred⟩
    rw [he] at hpred
    rcases Bool.or_eq_true_iff.mp hpred with hp | hp
    · rcases Bool.or_eq_true_iff.mp hp with hp | hp <;> simp [hp] at hno
    · simp [hp] at hno

/-- Constructing an edge line: a stored component with a dependency that
is a key of the map contributes that edge to the output. -/
lemma edge_mem_mermaid {m : List (String × Component)} {k d : String} {c : Component}
    (hmem : (k, c) ∈ m) (hd : d ∈ c.dependencies) (hkey : ∃ p ∈ m, p.1 = d) :
    MLine.edge k d ∈ mermaidLineList m :=
  edge_mem_mermaid_iff.mpr (mem_edgeLines_iff.mpr ⟨c, hmem, hd, hkey⟩)

/-- Node lines of one layer block, counted by name, are the components
of that layer bearing the name. -/
lemma countP_layerBlock (nm layer : String) (comps : List Component) :
    (layerBlock layer comps).countP (isNodeNamed nm) = namedIn nm comps := by
  unfold layerBlock namedIn
  split
  · next h =>
    rw [List.isEmpty_iff.mp h]
    rfl
  · rw [List.countP_cons, List.countP_append, List.countP_map]
    have h1 : (isNodeNamed nm (MLine.subgraphStart layer)) = false := rfl
    have h2 : ([MLine.subgraphEnd].countP (isNodeNamed nm)) = 0 := rfl
    rw [h1, h2]
    have h3 :
        (isNodeNamed nm ∘ fun c => MLine.node c.name c.performance.complexity) =
          fun c : Component => c.name == nm := by
      funext c
      rfl
    rw [h3]
    simp

/-- No line of the relationship section is counted as a node line. -/
lemma countP_edgeLines (nm : String) (m : List (String × Component)) :
    (edgeLines m).countP (isNodeNamed nm) = 0 := by
  rw [List.countP_eq_zero]
  intro l hl
  rcases mem_edgeLines_isEdge hl with ⟨a, b, rfl⟩
  simp [isNodeNamed]

/-- Membership after a Python dict assignment: the stored value is the
new one or was already present. -/
lemma mem_dictInsert {m : List (String × Component)} {k : String} {v : Component}
    {q : String × Component} (h : q ∈ dictInsert m k v) : q.2 = v ∨ q ∈ m := by
  unfold dictInsert at h
  split at h
  · rcases List.mem_map.mp h with ⟨p, hp, heq⟩
    split at heq
    · rw [← heq]
      exact Or.inl rfl
    · rw [← heq]
      exact Or.inr hp
  · rcases List.mem_append.mp h with h | h
    · exact Or.inr h
    · rw [List.mem_singleton.mp h]
      exact Or.inl rfl

/-- Classification of a file whose stem does not contain `test`: one of
the three non-test kinds. -/
lemma detect_not_test {f : PyFile} (h : strIn "test" (pyLower f.stem) = false) :
    detect_component_type f = "api" ∨ detect_component_type f = "model" ∨
      detect_component_type f = "module" := by
  unfold detect_component_type
  rw [if_neg (by simp [h])]
  split
  · exact Or.inl rfl
  · split
    · exact Or.inr (Or.inl rfl)
    · exact Or.inr (Or.inr rfl)

/-- Invariant of the analysis loop: every stored component kind is one
of the three non-test kinds. -/
lemma analyze_foldl_types (ccSum : String → Nat) (mi : String → Int)
    (sec : PyFile → List SecurityIssue) :
    ∀ (files : List PyFile) (acc : List (String × Component)),
      (∀ p ∈ acc, p.2.type = "api" ∨ p.2.type = "model" ∨ p.2.type = "module") →
      ∀ p ∈ files.foldl (analyzeStep ccSum mi sec) acc,
        p.2.type = "api" ∨ p.2.type = "model" ∨ p.2.type = "module" := by
  intro files
  induction files with
  | nil => exact fun acc hacc p hp => hacc p hp
  | cons f fs ih =>
    intro acc hacc p hp
    refine ih (analyzeStep ccSum mi sec acc f) ?_ p hp
    intro q hq
    unfold analyzeStep at hq
    split at hq
    · exact hacc q hq
    · next hskip =>
      rcases mem_dictInsert hq with hv | hv
      · rw [hv]
        exact detect_not_test (Bool.not_eq_true _ ▸ by simpa using hskip)
      · exact hacc q hv

/-- Claim-side predicate for the amended C4: the call's callee is a
plain name whose identifier contains one of the given words as a
substring. -/
def namedCallMatch (ws : List String) : PyNode → Bool
  | .callNode (.nameNode i) _ => ws.any (fun w => strIn w i)
  | _ => false

/-- Claim-side predicate for the amended C4: the call's callee is an
attribute access whose attribute name contains one of the given words as
a substring. -/
def attrCallMatch (ws : List String) : PyNode → Bool
  | .callNode (.attrNode _ a) _ => ws.any (fun w => strIn w a)
  | _ => false

/-! Claim theorems. -/

/-- C1: the claim says the CLI's `--format json` run dumps one component
entry per analyzed file.  The code disagrees: the json branch of
`viz-cli.py` serializes `analyzer.components` without ever invoking
`analyze()` (only the mermaid branch triggers it), so for every input
the dumped component map is empty — while running the analysis on the
same directory (here a single non-test file `app.py`) stores one
component.  The spec's described intent (a generate pass idempotently
triggering analyze, dumping `components: name -> fields`) marks this as
a slip in the code. -/
theorem C1_json_dump_always_empty :
    (∀ (ccSum : String → Nat) (mi : String → Int) (sec : PyFile → List SecurityIssue)
        (files : List PyFile), cliAnalyze ccSum mi sec files "json" = CliOutput.jsonOut []) ∧
    analyze ccZero miZero secNone [appFile] = [("app", appComp)] :=
  ⟨fun _ _ _ _ => rfl, by decide⟩

/-- C2 counterexample: a rendered node of aggregate complexity exactly
20 carries the `low` style class, not `medium` as the claim states for
the closed range 20 to 50. -/
theorem C2_counterexample :
    styleSuffix 20 = ":::low" ∧ ¬ styleSuffix 20 = ":::medium" ∧
    renderLine (MLine.node "core" 20) = "        core[core<br/>CC:20]:::low" := by
  decide

/-- C2 amended: complexity exactly 20 carries the `low` style class;
`medium` applies to the half-open range 20 < cc ≤ 50; complexity
strictly below 20 carries `low`. -/
theorem C2_amended_thresholds :
    styleSuffix 20 = ":::low" ∧
    (∀ cc : Nat, 20 < cc → cc ≤ 50 → styleSuffix cc = ":::medium") ∧
    (∀ cc : Nat, cc < 20 → styleSuffix cc = ":::low") := by
  refine ⟨rfl, ?_, ?_⟩
  · intro cc h1 h2
    unfold styleSuffix
    rw [if_neg (by omega), if_pos (by omega)]
  · intro cc h
    unfold styleSuffix
    rw [if_neg (by omega), if_neg (by omega)]

/-- Witness for the amended C2 at complexity 35 and 7. -/
theorem C2_witness : styleSuffix 35 = ":::medium" ∧ styleSuffix 7 = ":::low" :=
  ⟨C2_amended_thresholds.2.1 35 (by decide) (by decide),
   C2_amended_thresholds.2.2 7 (by decide)⟩

/-- C3: the style class of a rendered node is `low` for complexity
≤ 20, `medium` on the half-open interval (20, 50], `high` above 50; the
boundary values 20, 21, 50, 51 map to low, medium, medium, high. -/
theorem C3_style_thresholds :
    (∀ cc : Nat, cc ≤ 20 → styleSuffix cc = ":::low") ∧
    (∀ cc : Nat, 20 < cc → cc ≤ 50 → styleSuffix cc = ":::medium") ∧
    (∀ cc : Nat, 50 < cc → styleSuffix cc = ":::high") ∧
    styleSuffix 20 = ":::low" ∧ styleSuffix 21 = ":::medium" ∧
    styleSuffix 50 = ":::medium" ∧ styleSuffix 51 = ":::high" := by
  refine ⟨?_, ?_, ?_, rfl, rfl, rfl, rfl⟩
  · intro cc h
    unfold styleSuffix
    rw [if_neg (by omega), if_neg (by omega)]
  · intro cc h1 h2
    unfold styleSuffix
    rw [if_neg (by omega), if_pos (by omega)]
  · intro cc h
    unfold styleSuffix
    rw [if_pos (by omega)]

/-- Witness for C3 at complexities 10, 40 and 60. -/
theorem C3_witness :
    styleSuffix 10 = ":::low" ∧ styleSuffix 40 = ":::medium" ∧ styleSuffix 60 = ":::high" :=
  ⟨C3_style_thresholds.1 10 (by decide),
   C3_style_thresholds.2.1 40 (by decide) (by decide),
   C3_style_thresholds.2.2.1 60 (by decide)⟩

/-- C4 counterexample: a call whose callee is the bare name `get`
increments no tally — the network count inspects only the callee's
attribute name (`getattr(n.func, 'attr', '')`), which is empty for a
plain-name callee — refuting the claim that any call literally named
`get` increments the network-call count. -/
theorem C4_counterexample :
    getFuncId (PyNode.nameNode "get") = "get" ∧
    networkCallsCount (PyNode.callNode (PyNode.nameNode "get") []) = 0 ∧
    dbOpsCount (PyNode.callNode (PyNode.nameNode "get") []) = 0 ∧
    ioOpsCount (PyNode.callNode (PyNode.nameNode "get") []) = 0 := by
  decide

/-- C4 amended: the IO tally counts exactly the calls whose callee is a
plain name containing `open`, `read` or `write` as a substring; the DB
tally exactly the calls whose callee is an attribute access whose
attribute name contains `execute`, `query` or `commit`; the network
tally exactly the calls whose callee is an attribute access whose
attribute name contains `get`, `post` or `request` — so `obj.get(...)`
counts as one network call while a bare `get(...)` counts as none. -/
theorem C4_amended_call_counting (tree : PyNode) :
    ioOpsCount tree = ((walk tree).filter (namedCallMatch ["open", "read", "write"])).length ∧
    dbOpsCount tree =
      ((walk tree).filter (attrCallMatch ["execute", "query", "commit"])).length ∧
    networkCallsCount tree =
      ((walk tree).filter (attrCallMatch ["get", "post", "request"])).length ∧
    networkCallsCount (PyNode.callNode (PyNode.attrNode (PyNode.nameNode "obj") "get") []) = 1 ∧
    networkCallsCount (PyNode.callNode (PyNode.nameNode "get") []) = 0 := by
  refine ⟨?_, ?_, ?_, by decide, by decide⟩
  · unfold ioOpsCount
    rw [List.filter_congr ?_]
    intro n _
    cases n with
    | callNode f args => cases f <;> rfl
    | importNode ns => rfl
    | importFromNode m => rfl
    | nameNode i => rfl
    | attrNode v a => rfl
    | blockNode cs => rfl
  · unfold dbOpsCount
    rw [List.filter_congr ?_]
    intro n _
    cases n with
    | callNode f args => cases f <;> rfl
    | importNode ns => rfl
    | importFromNode m => rfl
    | nameNode i => rfl
    | attrNode v a => rfl
    | blockNode cs => rfl
  · unfold networkCallsCount
    rw [List.filter_congr ?_]
    intro n _
    cases n with
    | callNode f args => cases f <;> rfl
    | importNode ns => rfl
    | importFromNode m => rfl
    | nameNode i => rfl
    | attrNode v a => rfl
    | blockNode cs => rfl

/-- C5 counterexample: the three layer groups are not a partition — a
component named `api_client` matches both the `Client` and the `API`
substring filter and its node line is emitted twice. -/
theorem C5_counterexample :
    nodeCount "api_client" (mermaidLineList apiClientMap) = 2 ∧
    apiClientComp ∈ clientGroup apiClientMap ∧ apiClientComp ∈ apiGroup apiClientMap := by
  decide

/-- C5 amended: the three layer groups are independent substring filters
over the component map and may overlap; a component is emitted as a
diagram node once per group containing it, so the number of node lines
bearing a given name is the sum, over the three groups, of the
components of that group bearing the name (a name matching several
markers is rendered several times, one matching none is rendered zero
times). -/
theorem C5_amended_node_multiplicity (m : List (String × Component)) (nm : String) :
    nodeCount nm (mermaidLineList m) =
      namedIn nm (clientGroup m) + namedIn nm (apiGroup m) + namedIn nm (coreGroup m) := by
  unfold nodeCount mermaidLineList
  rw [List.countP_append, List.countP_append, List.countP_append, List.countP_append]
  rw [countP_layerBlock, countP_layerBlock, countP_layerBlock, countP_edgeLines]
  have hh : headerLines.countP (isNodeNamed nm) = 0 := rfl
  rw [hh]
  omega

/-- C6: a stored component whose name matches none of the five layer
markers gets no node line in the rendered diagram, yet every dependency
edge from it to a name that is a key of the component map is still
emitted. -/
theorem C6_unmatched_component (m : List (String × Component)) (k : String) (c : Component)
    (hmem : (k, c) ∈ m) (hno : inAnyLayer c.name = false) :
    (∀ cc : Nat, MLine.node c.name cc ∉ mermaidLineList m) ∧
    (∀ d : String, d ∈ c.dependencies → (∃ p ∈ m, p.1 = d) →
      MLine.edge k d ∈ mermaidLineList m) :=
  ⟨fun cc => node_notin_mermaid hno cc,
   fun _ hd hkey => edge_mem_mermaid hmem hd hkey⟩

/-- Witness for C6: in `helperMap` the component `helper` (matching no
marker) has no node line, while its edge to the key `corelib` is
emitted. -/
theorem C6_witness :
    MLine.node "helper" 3 ∉ mermaidLineList helperMap ∧
    MLine.edge "helper" "corelib" ∈ mermaidLineList helperMap := by
  have h := C6_unmatched_component helperMap "helper" helperComp (by decide) (by decide)
  exact ⟨h.1 3, h.2 "corelib" (by decide) ⟨("corelib", corelibComp), by decide, rfl⟩⟩

/-- C7: for a stored component and one of its dependencies `d`, the
edge to `d` occurs in the rendered diagram exactly when `d` is a key of
the component map; a third-party dependency that is not a key yields no
edge. -/
theorem C7_edge_iff_key (m : List (String × Component)) (k : String) (c : Component)
    (hmem : (k, c) ∈ m) (d : String) (hd : d ∈ c.dependencies) :
    MLine.edge k d ∈ mermaidLineList m ↔ ∃ p ∈ m, p.1 = d := by
  constructor
  · intro h
    rcases mem_edgeLines_iff.mp (edge_mem_mermaid_iff.mp h) with ⟨c', _, _, hkey⟩
    exact hkey
  · intro hkey
    exact edge_mem_mermaid hmem hd hkey

/-- Witness for C7: in `helperMap`, `helper`'s dependency `corelib` is a
key and its edge is emitted; its dependency `requests` is not a key and
no such edge is emitted. -/
theorem C7_witness :
    MLine.edge "helper" "corelib" ∈ mermaidLineList helperMap ∧
    MLine.edge "helper" "requests" ∉ mermaidLineList helperMap := by
  constructor
  · exact (C7_edge_iff_key helperMap "helper" helperComp (by decide) "corelib"
      (by decide)).mpr ⟨("corelib", corelibComp), by decide, rfl⟩
  · intro h
    rcases (C7_edge_iff_key helperMap "helper" helperComp (by decide) "requests"
      (by decide)).mp h with ⟨p, hp, he⟩
    rcases List.mem_cons.mp hp with rfl | hp
    · exact absurd he (by decide)
    · rcases List.mem_singleton.mp hp with rfl
      exact absurd he (by decide)

/-- C8: a directory with zero matching source files analyzes to an
empty component map, and the renderer then emits exactly the header and
the three style-class definition lines — no subgraph, node or edge
lines. -/
theorem C8_empty_directory_header_only :
    ∀ (ccSum : String → Nat) (mi : String → Int) (sec : PyFile → List SecurityIssue),
      analyze ccSum mi sec [] = [] ∧
      mermaidLineList [] =
        [MLine.header "graph TD", MLine.header "    %% Style definitions",
         MLine.classDef "high" "fill:#f44336,color:white",
         MLine.classDef "medium" "fill:#fb8c00,color:white",
         MLine.classDef "low" "fill:#81c784,color:black"] ∧
      generate_mermaid ccSum mi sec [] [] =
        "graph TD\n    %% Style definitions\n    classDef high fill:#f44336,color:white\n    classDef medium fill:#fb8c00,color:white\n    classDef low fill:#81c784,color:black" :=
  fun _ _ _ => ⟨rfl, rfl, rfl⟩

/-- C9: every component record stored by the analysis pass has kind
`api`, `model` or `module`, never `test`: files whose stem contains
`test` are skipped before classification, and the classifier's `test`
branch tests the same condition. -/
theorem C9_stored_kinds (ccSum : String → Nat) (mi : String → Int)
    (sec : PyFile → List SecurityIssue) (files : List PyFile) (k : String) (c : Component)
    (h : (k, c) ∈ analyze ccSum mi sec files) :
    c.type ≠ "test" ∧ (c.type = "api" ∨ c.type = "model" ∨ c.type = "module") := by
  have hd : c.type = "api" ∨ c.type = "model" ∨ c.type = "module" :=
    analyze_foldl_types ccSum mi sec files []
      (fun p hp => absurd hp (List.not_mem_nil p)) (k, c) h
  refine ⟨?_, hd⟩
  rcases hd with h1 | h1 | h1 <;> simp [h1]

/-- Witness for C9: the single-file analysis of `app.py` stores the
record `appComp`, whose kind is `module`. -/
theorem C9_witness :
    ("app", appComp) ∈ analyze ccZero miZero secNone [appFile] ∧
    appComp.type ≠ "test" ∧
      (appComp.type = "api" ∨ appComp.type = "model" ∨ appComp.type = "module") :=
  ⟨by decide, C9_stored_kinds ccZero miZero secNone [appFile] "app" appComp (by decide)⟩

/-- C10: constructing the analyzer with neither a repository URL nor a
local path raises the invalid-configuration `ValueError` immediately,
and no analyzer state results. -/
theorem C10_init_requires_source :
    ∀ cloneDir : String → String,
      initAnalyzer cloneDir none none =
        Except.error "Either repo_url or local_path must be provided" ∧
      (initAnalyzer cloneDir none none).isOk = false :=
  fun _ => ⟨rfl, rfl⟩
